import Mathlib

/-!
Verification of the social-media scheduling subsystem of the
Theo-van-Gogh repository (`Scheduler`, platform adapters, metadata
tracking updater), as a shallow embedding in Lean 4.

The repository ships the test-suite `tests/test_social_scheduler.py` and
`tests/test_mastodon.py` together with the stub adapters
(`src/social/bluesky.py`, `src/social/cara.py`, `src/social/pixelfed.py`).
The module `src/social/scheduler.py` (class `Scheduler`, helpers
`_get_image_path`, `_update_social_media_tracking`), `src/social/base.py`
(`SocialPlatform`, `PostResult`) and `src/social/mastodon.py`
(`MastodonPlatform`) are imported by those tests but are not part of the
source tree available here; the corresponding definitions below are
modelled from the specification, as flagged in their doc comments.
Timestamps (ISO-8601 strings compared chronologically in the source) are
modelled as natural numbers with the usual order.
-/

set_option autoImplicit false

/-- Status of a scheduled post: `scheduled` is the initial state,
`posted`, `failed` and `cancelled` are terminal (spec §3). -/
inductive Status where
  | scheduled
  | posted
  | failed
  | cancelled
deriving DecidableEq, Repr

/-- Modelled from the spec: one social-media posting intent (spec §3,
`ScheduledPost`), with `scheduled_time` and `created_at` as abstract
chronological instants. -/
structure ScheduledPost where
  id : String
  content_id : String
  metadata_path : String
  platform : String
  scheduled_time : Nat
  status : Status
  post_url : Option String
  error : Option String
  created_at : Nat
deriving DecidableEq, Repr

/-- Modelled from the spec: a terminal-state history record, carrying at
least the id, the terminal status, `post_url` or `error`, and a
timestamp (spec §6, persisted schedule document). -/
structure HistoryRecord where
  id : String
  status : Status
  post_url : Option String
  error : Option String
  resolved_at : Nat
deriving DecidableEq, Repr

/-- Modelled from the spec: the root persisted schedule document, with the
live `scheduled_posts` mapping (an insertion-ordered association list from
id to post) and the separately maintained ordered `history` sequence,
stored oldest-first with new records appended at the end (spec §3,
`Schedule Document`). -/
structure ScheduleDoc where
  scheduled_posts : List (String × ScheduledPost)
  history : List HistoryRecord
deriving DecidableEq, Repr

/-- The empty schedule document a fresh `Scheduler` starts from. -/
def ScheduleDoc.empty : ScheduleDoc :=
  { scheduled_posts := [], history := [] }

namespace Scheduler

/-- Look up a post by id in the live mapping (first match, insertion
order). -/
def findPost (live : List (String × ScheduledPost)) (pid : String) :
    Option ScheduledPost :=
  match live with
  | [] => none
  | (k, p) :: rest => if k = pid then some p else findPost rest pid

/-- Remove every entry with the given id from the live mapping. -/
def removePost (live : List (String × ScheduledPost)) (pid : String) :
    List (String × ScheduledPost) :=
  live.filter (fun kv => kv.1 ≠ pid)

/-- The live posts of a document, in insertion order. -/
def livePosts (doc : ScheduleDoc) : List ScheduledPost :=
  doc.scheduled_posts.map Prod.snd

/-- Modelled from the spec: `add_post` constructs a `ScheduledPost` with
status `scheduled`, inserts it into the live mapping and returns the
generated id (spec §4.1); the id, generated in the source as a
UUID-like token, is supplied here by the caller. -/
def add_post (doc : ScheduleDoc) (pid : String) (content_id : String)
    (metadata_path : String) (platform : String) (scheduled_time : Nat)
    (now : Nat) : ScheduleDoc :=
  { doc with
      scheduled_posts := doc.scheduled_posts ++
        [(pid,
          { id := pid
            content_id := content_id
            metadata_path := metadata_path
            platform := platform
            scheduled_time := scheduled_time
            status := Status.scheduled
            post_url := none
            error := none
            created_at := now })] }

/-- Modelled from the spec: `get_pending` returns all posts with status
`scheduled` and `scheduled_time` at or before the current time, in
insertion order (spec §4.1). -/
def get_pending (doc : ScheduleDoc) (now : Nat) : List ScheduledPost :=
  (livePosts doc).filter
    (fun p => decide (p.status = Status.scheduled ∧ p.scheduled_time ≤ now))

/-- Modelled from the spec: `get_upcoming` returns all posts with status
`scheduled` and `scheduled_time` strictly after the current time
(spec §4.1). -/
def get_upcoming (doc : ScheduleDoc) (now : Nat) : List ScheduledPost :=
  (livePosts doc).filter
    (fun p => decide (p.status = Status.scheduled ∧ now < p.scheduled_time))

/-- Modelled from the spec: `cancel_post` removes the post from the live
set and reports `true` when the id is present, and reports `false`
without error when the id is unknown (spec §4.1). -/
def cancel_post (doc : ScheduleDoc) (pid : String) : Bool × ScheduleDoc :=
  match findPost doc.scheduled_posts pid with
  | some _ =>
      (true, { doc with scheduled_posts := removePost doc.scheduled_posts pid })
  | none => (false, doc)

/-- Modelled from the spec: `mark_posted` transitions the post to
`posted`, sets `post_url`, appends a record to the history and removes
the entry from the live mapping (spec §4.1); unknown ids leave the
document unchanged. -/
def mark_posted (doc : ScheduleDoc) (pid : String) (url : Option String)
    (now : Nat) : ScheduleDoc :=
  match findPost doc.scheduled_posts pid with
  | some _ =>
      { scheduled_posts := removePost doc.scheduled_posts pid
        history := doc.history ++
          [{ id := pid, status := Status.posted, post_url := url,
             error := none, resolved_at := now }] }
  | none => doc

/-- Modelled from the spec: `mark_failed` transitions the post to
`failed`, sets `error`, appends a record to the history and removes the
entry from the live mapping (spec §4.1). -/
def mark_failed (doc : ScheduleDoc) (pid : String) (msg : String)
    (now : Nat) : ScheduleDoc :=
  match findPost doc.scheduled_posts pid with
  | some _ =>
      { scheduled_posts := removePost doc.scheduled_posts pid
        history := doc.history ++
          [{ id := pid, status := Status.failed, post_url := none,
             error := some msg, resolved_at := now }] }
  | none => doc

/-- Modelled from the spec: `get_history` returns up to `limit`
most-recent history records, most-recent-first (spec §4.1); history is
stored oldest-first, so retrieval reverses and truncates. -/
def get_history (doc : ScheduleDoc) (limit : Nat) : List HistoryRecord :=
  doc.history.reverse.take limit

end Scheduler

/-- A schedule document is well-formed when every live entry is stored
under its own post id, as `add_post` guarantees. -/
def ScheduleDoc.WF (doc : ScheduleDoc) : Prop :=
  ∀ kv ∈ doc.scheduled_posts, kv.2.id = kv.1

/-- After removing an id from the live mapping, looking it up fails. -/
theorem findPost_removePost_self (live : List (String × ScheduledPost))
    (pid : String) :
    Scheduler.findPost (Scheduler.removePost live pid) pid = none := by
  induction live with
  | nil => rfl
  | cons kv rest ih =>
    by_cases h : kv.1 = pid
    · simpa [Scheduler.removePost, List.filter_cons, h] using ih
    · simpa [Scheduler.removePost, List.filter_cons, h, Scheduler.findPost] using ih

/-- Lookup fails exactly when no live entry carries the id. -/
theorem findPost_eq_none_iff (live : List (String × ScheduledPost))
    (pid : String) :
    Scheduler.findPost live pid = none ↔ ∀ kv ∈ live, kv.1 ≠ pid := by
  induction live with
  | nil => simp [Scheduler.findPost]
  | cons kv rest ih =>
    by_cases h : kv.1 = pid
    · simp [Scheduler.findPost, h]
    · simp [Scheduler.findPost, h, ih]

/-- Ten posts added in the past and marked posted, the scenario of
`test_history_limit`. -/
def historyDemo : ScheduleDoc :=
  (List.range 10).foldl
    (fun d i =>
      Scheduler.mark_posted
        (Scheduler.add_post d (toString i) (String.append "test_" (toString i))
          "/path" "mastodon" 0 0)
        (toString i) none i)
    ScheduleDoc.empty

/-- C1: for every document and current time, `get_pending` holds exactly the
scheduled-status posts due at or before `now`, `get_upcoming` exactly the
scheduled-status posts strictly after `now`, the two are disjoint, and their
union is the set of all live posts with status `scheduled`. -/
theorem get_pending_get_upcoming_partition (doc : ScheduleDoc) (now : Nat) :
    (∀ p : ScheduledPost,
        p ∈ Scheduler.get_pending doc now ↔
          p ∈ Scheduler.livePosts doc ∧ p.status = Status.scheduled ∧
            p.scheduled_time ≤ now) ∧
    (∀ p : ScheduledPost,
        p ∈ Scheduler.get_upcoming doc now ↔
          p ∈ Scheduler.livePosts doc ∧ p.status = Status.scheduled ∧
            now < p.scheduled_time) ∧
    (∀ p : ScheduledPost,
        p ∈ Scheduler.get_pending doc now → p ∉ Scheduler.get_upcoming doc now) ∧
    (∀ p : ScheduledPost,
        (p ∈ Scheduler.livePosts doc ∧ p.status = Status.scheduled) ↔
          (p ∈ Scheduler.get_pending doc now ∨ p ∈ Scheduler.get_upcoming doc now)) := by
  refine ⟨?_, ?_, ?_, ?_⟩
  · intro p
    simp [Scheduler.get_pending, List.mem_filter, and_assoc]
  · intro p
    simp [Scheduler.get_upcoming, List.mem_filter, and_assoc]
  · intro p hp hu
    simp [Scheduler.get_pending, List.mem_filter] at hp
    simp [Scheduler.get_upcoming, List.mem_filter] at hu
    omega
  · intro p
    constructor
    · rintro ⟨hmem, hst⟩
      rcases le_or_lt p.scheduled_time now with h | h
      · exact Or.inl (by simp [Scheduler.get_pending, List.mem_filter, hmem, hst, h])
      · exact Or.inr (by simp [Scheduler.get_upcoming, List.mem_filter, hmem, hst, h])
    · rintro (h | h)
      · simp [Scheduler.get_pending, List.mem_filter] at h
        exact ⟨h.1, h.2.1⟩
      · simp [Scheduler.get_upcoming, List.mem_filter] at h
        exact ⟨h.1, h.2.1⟩

/-- C2: when the id is live, `mark_posted id url` removes the entry from the
live mapping and leaves as most-recent history record one with status
`posted` and the given `post_url`, so `get_history 1` returns exactly that
record; `mark_failed id msg` analogously yields one most-recent record with
status `failed` and the given `error`, and removes the post. -/
theorem mark_posted_mark_failed_spec (doc : ScheduleDoc) (pid url msg : String)
    (now : Nat) (p : ScheduledPost)
    (h : Scheduler.findPost doc.scheduled_posts pid = some p) :
    Scheduler.get_history (Scheduler.mark_posted doc pid (some url) now) 1 =
      [{ id := pid, status := Status.posted, post_url := some url,
         error := none, resolved_at := now }] ∧
    Scheduler.findPost
      (Scheduler.mark_posted doc pid (some url) now).scheduled_posts pid = none ∧
    Scheduler.get_history (Scheduler.mark_failed doc pid msg now) 1 =
      [{ id := pid, status := Status.failed, post_url := none,
         error := some msg, resolved_at := now }] ∧
    Scheduler.findPost
      (Scheduler.mark_failed doc pid msg now).scheduled_posts pid = none := by
  refine ⟨?_, ?_, ?_, ?_⟩
  · simp [Scheduler.get_history, Scheduler.mark_posted, h]
  · simp [Scheduler.mark_posted, h, findPost_removePost_self]
  · simp [Scheduler.get_history, Scheduler.mark_failed, h]
  · simp [Scheduler.mark_failed, h, findPost_removePost_self]

/-- Witness for C2 on a concrete one-post document. -/
theorem mark_posted_mark_failed_spec_witness :
    Scheduler.get_history
      (Scheduler.mark_posted
        (Scheduler.add_post ScheduleDoc.empty "a" "test" "/path" "mastodon" 0 0)
        "a" (some "https://example.com/post/123") 5) 1 =
      [{ id := "a", status := Status.posted,
         post_url := some "https://example.com/post/123",
         error := none, resolved_at := 5 }] :=
  (mark_posted_mark_failed_spec
    (Scheduler.add_post ScheduleDoc.empty "a" "test" "/path" "mastodon" 0 0)
    "a" "https://example.com/post/123" "Connection timeout" 5
    { id := "a", content_id := "test", metadata_path := "/path",
      platform := "mastodon", scheduled_time := 0,
      status := Status.scheduled, post_url := none, error := none,
      created_at := 0 }
    (by decide)).1

/-- C3: `get_history limit` returns `min limit |history|` records, and they
are exactly the most-recent records in most-recent-first order (the reverse
of the history's final segment); in the ten-event scenario of
`test_history_limit`, `get_history 5` returns exactly the five most recent
records. Output size depends only on the caller-supplied limit. -/
theorem get_history_limit_spec (doc : ScheduleDoc) (k : Nat) :
    (Scheduler.get_history doc k).length = min k doc.history.length ∧
    Scheduler.get_history doc k =
      (doc.history.drop (doc.history.length - k)).reverse ∧
    historyDemo.history.length = 10 ∧
    Scheduler.get_history historyDemo 5 =
      [{ id := "9", status := Status.posted, post_url := none,
         error := none, resolved_at := 9 },
       { id := "8", status := Status.posted, post_url := none,
         error := none, resolved_at := 8 },
       { id := "7", status := Status.posted, post_url := none,
         error := none, resolved_at := 7 },
       { id := "6", status := Status.posted, post_url := none,
         error := none, resolved_at := 6 },
       { id := "5", status := Status.posted, post_url := none,
         error := none, resolved_at := 5 }] := by
  refine ⟨?_, ?_, ?_, ?_⟩
  · simp [Scheduler.get_history]
  · simp [Scheduler.get_history, List.take_reverse]
  · decide
  · decide

/-- C4: `cancel_post` reports success exactly when the id is live; on an
unknown id it returns `false` and leaves the document unchanged; a second
cancel of the same id, or a cancel after `mark_posted`, returns `false`; and
after cancellation the id appears in neither `get_pending` nor
`get_upcoming`. -/
theorem cancel_post_spec (doc : ScheduleDoc) (pid : String) (now : Nat)
    (hwf : doc.WF) :
    ((Scheduler.findPost doc.scheduled_posts pid).isSome ↔
        (Scheduler.cancel_post doc pid).1 = true) ∧
    (Scheduler.findPost doc.scheduled_posts pid = none →
        Scheduler.cancel_post doc pid = (false, doc)) ∧
    (Scheduler.cancel_post (Scheduler.cancel_post doc pid).2 pid).1 = false ∧
    (∀ url now2,
        (Scheduler.cancel_post (Scheduler.mark_posted doc pid url now2) pid).1 =
          false) ∧
    (∀ p ∈ Scheduler.get_pending (Scheduler.cancel_post doc pid).2 now,
        p.id ≠ pid) ∧
    (∀ p ∈ Scheduler.get_upcoming (Scheduler.cancel_post doc pid).2 now,
        p.id ≠ pid) := by
  have hlive : ∀ p ∈ Scheduler.livePosts (Scheduler.cancel_post doc pid).2,
      p.id ≠ pid := by
    intro p hp
    cases hc : Scheduler.findPost doc.scheduled_posts pid with
    | some q =>
      rw [Scheduler.cancel_post, hc] at hp
      simp [Scheduler.livePosts, Scheduler.removePost, List.mem_filter] at hp
      obtain ⟨k, hmem, hk⟩ := hp
      have hid : p.id = k := hwf (k, p) hmem
      rw [hid]
      exact hk
    | none =>
      rw [Scheduler.cancel_post, hc] at hp
      simp [Scheduler.livePosts] at hp
      obtain ⟨k, hmem⟩ := hp
      have hk := (findPost_eq_none_iff doc.scheduled_posts pid).mp hc (k, p) hmem
      have hid : p.id = k := hwf (k, p) hmem
      rw [hid]
      exact hk
  refine ⟨?_, ?_, ?_, ?_, ?_, ?_⟩
  · cases hc : Scheduler.findPost doc.scheduled_posts pid <;>
      simp [Scheduler.cancel_post, hc]
  · intro hc
    simp [Scheduler.cancel_post, hc]
  · cases hc : Scheduler.findPost doc.scheduled_posts pid with
    | some q => simp [Scheduler.cancel_post, hc, findPost_removePost_self]
    | none => simp [Scheduler.cancel_post, hc]
  · intro url now2
    cases hc : Scheduler.findPost doc.scheduled_posts pid with
    | some q => simp [Scheduler.mark_posted, hc, Scheduler.cancel_post,
        findPost_removePost_self]
    | none => simp [Scheduler.mark_posted, hc, Scheduler.cancel_post]
  · intro p hp
    exact hlive p (((get_pending_get_upcoming_partition _ now).1 p).mp hp).1
  · intro p hp
    exact hlive p (((get_pending_get_upcoming_partition _ now).2.1 p).mp hp).1

/-- Witness for C4 on a concrete one-post document. -/
theorem cancel_post_spec_witness :
    (Scheduler.findPost
        (Scheduler.add_post ScheduleDoc.empty "a" "t" "/p" "mastodon" 3 0).scheduled_posts
        "a").isSome ↔
      (Scheduler.cancel_post
        (Scheduler.add_post ScheduleDoc.empty "a" "t" "/p" "mastodon" 3 0) "a").1 =
        true :=
  (cancel_post_spec (Scheduler.add_post ScheduleDoc.empty "a" "t" "/p" "mastodon" 3 0)
    "a" 0
    (by
      rintro kv hkv
      simp [Scheduler.add_post, ScheduleDoc.empty] at hkv
      simp [hkv])).1

/-- A JSON-like value, the persisted form of the schedule document
(spec §6, `Persisted schedule document (JSON or equivalent structured
file)`). -/
inductive JVal where
  | null
  | str (s : String)
  | num (n : Nat)
  | arr (elems : List JVal)
  | obj (fields : List (String × JVal))

/-- Serialize a post status to its JSON string. -/
def encodeStatus : Status → JVal
  | Status.scheduled => JVal.str "scheduled"
  | Status.posted => JVal.str "posted"
  | Status.failed => JVal.str "failed"
  | Status.cancelled => JVal.str "cancelled"

/-- Parse a post status from its JSON string. -/
def decodeStatus : JVal → Option Status
  | JVal.str "scheduled" => some Status.scheduled
  | JVal.str "posted" => some Status.posted
  | JVal.str "failed" => some Status.failed
  | JVal.str "cancelled" => some Status.cancelled
  | _ => none

/-- Serialize an optional string (`null` when absent). -/
def encodeOptStr : Option String → JVal
  | none => JVal.null
  | some s => JVal.str s

/-- Parse an optional string. -/
def decodeOptStr : JVal → Option (Option String)
  | JVal.null => some none
  | JVal.str s => some (some s)
  | _ => none

/-- Serialize a `ScheduledPost` to a JSON object with its field names. -/
def encodePost (p : ScheduledPost) : JVal :=
  JVal.obj
    [("id", JVal.str p.id),
     ("content_id", JVal.str p.content_id),
     ("metadata_path", JVal.str p.metadata_path),
     ("platform", JVal.str p.platform),
     ("scheduled_time", JVal.num p.scheduled_time),
     ("status", encodeStatus p.status),
     ("post_url", encodeOptStr p.post_url),
     ("error", encodeOptStr p.error),
     ("created_at", JVal.num p.created_at)]

/-- Parse a `ScheduledPost` from its JSON object. -/
def decodePost : JVal → Option ScheduledPost
  | JVal.obj
      [("id", JVal.str i),
       ("content_id", JVal.str c),
       ("metadata_path", JVal.str m),
       ("platform", JVal.str pl),
       ("scheduled_time", JVal.num t),
       ("status", sj),
       ("post_url", uj),
       ("error", ej),
       ("created_at", JVal.num ca)] =>
    match decodeStatus sj, decodeOptStr uj, decodeOptStr ej with
    | some s, some u, some e =>
        some { id := i, content_id := c, metadata_path := m, platform := pl,
               scheduled_time := t, status := s, post_url := u, error := e,
               created_at := ca }
    | _, _, _ => none
  | _ => none

/-- Serialize a history record to a JSON object. -/
def encodeHist (r : HistoryRecord) : JVal :=
  JVal.obj
    [("id", JVal.str r.id),
     ("status", encodeStatus r.status),
     ("post_url", encodeOptStr r.post_url),
     ("error", encodeOptStr r.error),
     ("resolved_at", JVal.num r.resolved_at)]

/-- Parse a history record from its JSON object. -/
def decodeHist : JVal → Option HistoryRecord
  | JVal.obj
      [("id", JVal.str i),
       ("status", sj),
       ("post_url", uj),
       ("error", ej),
       ("resolved_at", JVal.num t)] =>
    match decodeStatus sj, decodeOptStr uj, decodeOptStr ej with
    | some s, some u, some e =>
        some { id := i, status := s, post_url := u, error := e,
               resolved_at := t }
    | _, _, _ => none
  | _ => none

/-- Parse the live mapping from the fields of its JSON object. -/
def decodeEntries : List (String × JVal) → Option (List (String × ScheduledPost))
  | [] => some []
  | (k, j) :: rest =>
    match decodePost j, decodeEntries rest with
    | some p, some ps => some ((k, p) :: ps)
    | _, _ => none

/-- Parse the history sequence from the elements of its JSON array. -/
def decodeHists : List JVal → Option (List HistoryRecord)
  | [] => some []
  | j :: rest =>
    match decodeHist j, decodeHists rest with
    | some r, some rs => some (r :: rs)
    | _, _ => none

/-- Modelled from the spec: the persisted schedule document is a root
object with keys `scheduled_posts` (mapping id to post fields) and
`history` (sequence of terminal-state records) (spec §6). -/
def encodeDoc (doc : ScheduleDoc) : JVal :=
  JVal.obj
    [("scheduled_posts",
      JVal.obj (doc.scheduled_posts.map (fun kv => (kv.1, encodePost kv.2)))),
     ("history", JVal.arr (doc.history.map encodeHist))]

/-- Parse a schedule document from its persisted JSON form. -/
def decodeDoc : JVal → Option ScheduleDoc
  | JVal.obj
      [("scheduled_posts", JVal.obj entries),
       ("history", JVal.arr hist)] =>
    match decodeEntries entries, decodeHists hist with
    | some sp, some h => some { scheduled_posts := sp, history := h }
    | _, _ => none
  | _ => none

namespace Scheduler

/-- Modelled from the spec: every mutation rewrites the whole document to
the schedule file (spec §3, `rewritten fully on every mutation`). -/
def save (doc : ScheduleDoc) : JVal :=
  encodeDoc doc

/-- Modelled from the spec: constructing a `Scheduler` reads the schedule
file fully into memory, starting from the empty document when the file
does not exist yet (spec §3). -/
def load (file : Option JVal) : Option ScheduleDoc :=
  match file with
  | none => some ScheduleDoc.empty
  | some j => decodeDoc j

end Scheduler

theorem decodePost_encodePost (p : ScheduledPost) :
    decodePost (encodePost p) = some p := by
  obtain ⟨i, c, m, pl, t, s, u, e, ca⟩ := p
  cases s <;> cases u <;> cases e <;> rfl

theorem decodeHist_encodeHist (r : HistoryRecord) :
    decodeHist (encodeHist r) = some r := by
  obtain ⟨i, s, u, e, t⟩ := r
  cases s <;> cases u <;> cases e <;> rfl

theorem decodeEntries_map_encodePost (l : List (String × ScheduledPost)) :
    decodeEntries (l.map (fun kv => (kv.1, encodePost kv.2))) = some l := by
  induction l with
  | nil => rfl
  | cons kv rest ih =>
    simp [decodeEntries, decodePost_encodePost, ih]

theorem decodeHists_map_encodeHist (l : List HistoryRecord) :
    decodeHists (l.map encodeHist) = some l := by
  induction l with
  | nil => rfl
  | cons r rest ih =>
    simp [decodeHists, decodeHist_encodeHist, ih]

/-- The persisted JSON form of a schedule document parses back to the
identical document. -/
theorem decodeDoc_encodeDoc (doc : ScheduleDoc) :
    decodeDoc (encodeDoc doc) = some doc := by
  obtain ⟨sp, h⟩ := doc
  simp [encodeDoc, decodeDoc, decodeEntries_map_encodePost,
    decodeHists_map_encodeHist]

/-- Looking up an id that was absent before an append finds the appended
post. -/
theorem findPost_append_fresh (live : List (String × ScheduledPost))
    (pid : String) (p : ScheduledPost)
    (h : Scheduler.findPost live pid = none) :
    Scheduler.findPost (live ++ [(pid, p)]) pid = some p := by
  induction live with
  | nil => simp [Scheduler.findPost]
  | cons kv rest ih =>
    by_cases hk : kv.1 = pid
    · simp [Scheduler.findPost, hk] at h
    · simp [Scheduler.findPost, hk] at h ⊢
      exact ih h

/-- C5: persistence round-trips losslessly — after `add_post`, loading a new
`Scheduler` from the persisted schedule file yields the identical document,
and its `scheduled_posts` contains the added post with all fields
unchanged. -/
theorem add_post_persistence_roundtrip (doc : ScheduleDoc)
    (pid c m pl : String) (t now : Nat)
    (hfresh : Scheduler.findPost doc.scheduled_posts pid = none) :
    Scheduler.load
        (some (Scheduler.save (Scheduler.add_post doc pid c m pl t now))) =
      some (Scheduler.add_post doc pid c m pl t now) ∧
    (∀ doc2,
        Scheduler.load
            (some (Scheduler.save (Scheduler.add_post doc pid c m pl t now))) =
          some doc2 →
        Scheduler.findPost doc2.scheduled_posts pid =
          some { id := pid, content_id := c, metadata_path := m,
                 platform := pl, scheduled_time := t,
                 status := Status.scheduled, post_url := none, error := none,
                 created_at := now }) := by
  have h1 : Scheduler.load
      (some (Scheduler.save (Scheduler.add_post doc pid c m pl t now))) =
      some (Scheduler.add_post doc pid c m pl t now) := by
    simp [Scheduler.load, Scheduler.save, decodeDoc_encodeDoc]
  refine ⟨h1, ?_⟩
  intro doc2 h2
  rw [h1, Option.some_inj] at h2
  subst h2
  simpa [Scheduler.add_post] using
    findPost_append_fresh doc.scheduled_posts pid _ hfresh

/-- Witness for C5 starting from the empty schedule file. -/
theorem add_post_persistence_roundtrip_witness :
    Scheduler.load
        (some (Scheduler.save
          (Scheduler.add_post ScheduleDoc.empty "a" "test" "/path/meta.json"
            "mastodon" 10 0))) =
      some (Scheduler.add_post ScheduleDoc.empty "a" "test" "/path/meta.json"
        "mastodon" 10 0) :=
  (add_post_persistence_roundtrip ScheduleDoc.empty "a" "test"
    "/path/meta.json" "mastodon" 10 0 rfl).1

/-- Modelled from the spec: run one mutating `Scheduler` operation against
the in-memory document and the schedule file; the full-document write
either succeeds, updating memory and disk together, or the I/O error
propagates to the caller and the operation is as if it never happened
(spec §4.1 failure semantics, §7 persistence failures). -/
def runMutating (mem : ScheduleDoc) (disk : Option JVal)
    (op : ScheduleDoc → ScheduleDoc) (diskOk : Bool) :
    Except String Unit × ScheduleDoc × Option JVal :=
  if diskOk then (Except.ok (), op mem, some (Scheduler.save (op mem)))
  else (Except.error "persistence failure", mem, disk)

/-- C6: a persistence I/O failure propagates as a hard error of the
mutating operation, on failure both the in-memory and on-disk state are
exactly as before the call, and in every outcome the disk holds the full
serialized form of the in-memory document — the two never diverge and no
partial document is written. -/
theorem mutating_persistence_atomic (mem : ScheduleDoc) (disk : Option JVal)
    (op : ScheduleDoc → ScheduleDoc) (diskOk : Bool)
    (hsync : disk = some (Scheduler.save mem)) :
    ((runMutating mem disk op diskOk).1 =
        Except.error "persistence failure" ↔ diskOk = false) ∧
    (diskOk = false →
        runMutating mem disk op diskOk =
          (Except.error "persistence failure", mem, disk)) ∧
    (runMutating mem disk op diskOk).2.2 =
      some (Scheduler.save (runMutating mem disk op diskOk).2.1) ∧
    Scheduler.load (runMutating mem disk op diskOk).2.2 =
      some (runMutating mem disk op diskOk).2.1 := by
  cases diskOk <;>
    simp [runMutating, hsync, Scheduler.load, Scheduler.save,
      decodeDoc_encodeDoc]

/-- Witness for C6: a failed write of an `add_post` mutation leaves the
empty document and its file untouched. -/
theorem mutating_persistence_atomic_witness :
    runMutating ScheduleDoc.empty (some (Scheduler.save ScheduleDoc.empty))
        (fun d => Scheduler.add_post d "a" "c" "/m" "mastodon" 1 0) false =
      (Except.error "persistence failure", ScheduleDoc.empty,
        some (Scheduler.save ScheduleDoc.empty)) :=
  (mutating_persistence_atomic ScheduleDoc.empty
    (some (Scheduler.save ScheduleDoc.empty))
    (fun d => Scheduler.add_post d "a" "c" "/m" "mastodon" 1 0) false
    rfl).2.1 rfl

/-- The Platform Adapter's transient report of one posting attempt
(spec §3, `PostResult`): modelled from the spec, since `src/social/base.py`
is not in the available tree. -/
structure PostResult where
  success : Bool
  post_url : Option String
  error : Option String
deriving DecidableEq, Repr

namespace MastodonPlatform

/-- Modelled from the spec: the credentials a `MastodonPlatform` holds, an
instance URL and an access token (tests `test_mastodon.py`). -/
structure Config where
  instance_url : String
  access_token : String
deriving DecidableEq, Repr

/-- Modelled from the spec: `is_configured` is true iff both the instance
URL and the access token are non-empty; it performs no network I/O
(spec §4.2). -/
def is_configured (cfg : Config) : Bool :=
  cfg.instance_url ≠ "" && cfg.access_token ≠ ""

/-- Modelled from the spec: the remote platform's behaviour for one
posting attempt — the outcome of the media-upload call and of the
status-creation call, each either a response value or a failure
diagnostic (spec §4.2, two-step publish). -/
structure Network where
  media_upload : Except String String
  status_post : Except String String
deriving Repr

/-- Modelled from the spec: `post_image` fails fast without a network call
when unconfigured; otherwise it uploads the media and then creates the
status, capturing every remote failure into the returned `PostResult`
instead of raising (spec §4.2). Returns the result together with the
number of network calls made. -/
def post_image (cfg : Config) (net : Network) : PostResult × Nat :=
  if is_configured cfg then
    match net.media_upload with
    | Except.error e =>
        ({ success := false, post_url := none,
           error := some (String.append "Media upload failed: " e) }, 1)
    | Except.ok _ =>
      match net.status_post with
      | Except.error e =>
          ({ success := false, post_url := none,
             error := some (String.append "Post failed: " e) }, 2)
      | Except.ok url =>
          ({ success := true, post_url := some url, error := none }, 2)
  else
    ({ success := false, post_url := none,
       error := some "Mastodon not configured" }, 0)

end MastodonPlatform

/-- C7: when `is_configured` is false, `post_image` makes no network call
and returns a failed `PostResult` whose error contains "not configured";
whenever the returned result is successful its `post_url` is populated; and
for every configuration and every remote behaviour the attempt yields a
`PostResult` — never a propagated error — with `error` populated on every
failure. -/
theorem mastodon_post_image_contract (cfg : MastodonPlatform.Config)
    (net : MastodonPlatform.Network)
    (hnc : MastodonPlatform.is_configured cfg = false) :
    (MastodonPlatform.post_image cfg net).2 = 0 ∧
    (MastodonPlatform.post_image cfg net).1.success = false ∧
    (∃ e, (MastodonPlatform.post_image cfg net).1.error = some e ∧
        "not configured".data <:+: e.data) ∧
    (∀ (cfg2 : MastodonPlatform.Config) (net2 : MastodonPlatform.Network),
        ((MastodonPlatform.post_image cfg2 net2).1.success = true →
            ∃ u, (MastodonPlatform.post_image cfg2 net2).1.post_url = some u) ∧
        ((MastodonPlatform.post_image cfg2 net2).1.success = false →
            ∃ e, (MastodonPlatform.post_image cfg2 net2).1.error = some e)) := by
  refine ⟨?_, ?_, ?_, ?_⟩
  · simp [MastodonPlatform.post_image, hnc]
  · simp [MastodonPlatform.post_image, hnc]
  · refine ⟨"Mastodon not configured", ?_, by decide⟩
    simp [MastodonPlatform.post_image, hnc]
  · intro cfg2 net2
    by_cases hc : MastodonPlatform.is_configured cfg2 <;>
      rcases hm : net2.media_upload with e | mid <;>
      rcases hs : net2.status_post with e2 | url <;>
      simp [MastodonPlatform.post_image, hc, hm, hs]

/-- Witness for C7 at the unconfigured platform of
`test_not_configured_returns_error`. -/
theorem mastodon_post_image_contract_witness :
    (MastodonPlatform.post_image { instance_url := "", access_token := "" }
        { media_upload := Except.ok "media_123",
          status_post := Except.ok "https://mastodon.example.com/@user/12345" }).2 =
      0 :=
  (mastodon_post_image_contract { instance_url := "", access_token := "" }
    { media_upload := Except.ok "media_123",
      status_post := Except.ok "https://mastodon.example.com/@user/12345" }
    (by decide)).1

/-- The signal a stub adapter raises: the `NotImplementedError` of
`bluesky.py`, `cara.py` and `pixelfed.py`, kept distinct from an
ordinary returned `PostResult`. -/
inductive StubSignal where
  | notImplemented (msg : String)
deriving DecidableEq, Repr

namespace BlueskyPlatform

/-- Class attributes of `BlueskyPlatform` (`src/social/bluesky.py`). -/
def name : String := "bluesky"

def display_name : String := "Bluesky"

def supports_video : Bool := true

def supports_images : Bool := true

def max_text_length : Nat := 300

def _is_stub : Bool := true

/-- `BlueskyPlatform.verify_credentials` raises `NotImplementedError`
(`src/social/bluesky.py`). -/
def verify_credentials : Except StubSignal Bool :=
  Except.error (StubSignal.notImplemented "Bluesky integration not yet implemented")

/-- `BlueskyPlatform.post_image` raises `NotImplementedError`
(`src/social/bluesky.py`). -/
def post_image (image_path text alt_text : String) :
    Except StubSignal PostResult :=
  Except.error (StubSignal.notImplemented "Bluesky integration not yet implemented")

/-- `BlueskyPlatform.post_video` raises `NotImplementedError`
(`src/social/bluesky.py`). -/
def post_video (video_path text : String) : Except StubSignal PostResult :=
  Except.error (StubSignal.notImplemented "Bluesky integration not yet implemented")

/-- `BlueskyPlatform.is_configured` always returns `False`
(`src/social/bluesky.py`). -/
def is_configured : Bool := false

end BlueskyPlatform

namespace CaraPlatform

/-- Class attributes of `CaraPlatform` (`src/social/cara.py`). -/
def name : String := "cara"

def display_name : String := "Cara"

def supports_video : Bool := false

def supports_images : Bool := true

def max_text_length : Nat := 2000

def _is_stub : Bool := true

/-- `CaraPlatform.verify_credentials` raises `NotImplementedError`
(`src/social/cara.py`). -/
def verify_credentials : Except StubSignal Bool :=
  Except.error (StubSignal.notImplemented "Cara integration not yet implemented")

/-- `CaraPlatform.post_image` raises `NotImplementedError`
(`src/social/cara.py`). -/
def post_image (image_path text alt_text : String) :
    Except StubSignal PostResult :=
  Except.error (StubSignal.notImplemented "Cara integration not yet implemented")

/-- `CaraPlatform.post_video` raises `NotImplementedError`
(`src/social/cara.py`). -/
def post_video (video_path text : String) : Except StubSignal PostResult :=
  Except.error (StubSignal.notImplemented "Cara integration not yet implemented")

/-- `CaraPlatform.is_configured` always returns `False`
(`src/social/cara.py`). -/
def is_configured : Bool := false

end CaraPlatform

namespace PixelfedPlatform

/-- Class attributes of `PixelfedPlatform` (`src/social/pixelfed.py`). -/
def name : String := "pixelfed"

def display_name : String := "Pixelfed"

def supports_video : Bool := true

def supports_images : Bool := true

def max_text_length : Nat := 500

def _is_stub : Bool := true

/-- `PixelfedPlatform.verify_credentials` raises `NotImplementedError`
(`src/social/pixelfed.py`). -/
def verify_credentials : Except StubSignal Bool :=
  Except.error (StubSignal.notImplemented "Pixelfed integration not yet implemented")

/-- `PixelfedPlatform.post_image` raises `NotImplementedError`
(`src/social/pixelfed.py`). -/
def post_image (image_path text alt_text : String) :
    Except StubSignal PostResult :=
  Except.error (StubSignal.notImplemented "Pixelfed integration not yet implemented")

/-- `PixelfedPlatform.post_video` raises `NotImplementedError`
(`src/social/pixelfed.py`). -/
def post_video (video_path text : String) : Except StubSignal PostResult :=
  Except.error (StubSignal.notImplemented "Pixelfed integration not yet implemented")

/-- `PixelfedPlatform.is_configured` always returns `False`
(`src/social/pixelfed.py`). -/
def is_configured : Bool := false

end PixelfedPlatform

/-- C8: for each stub adapter (Bluesky, Cara, Pixelfed), `is_configured`
always returns false, and `post_image`, `post_video` and
`verify_credentials` each signal a "not implemented" condition — an
`Except.error (StubSignal.notImplemented _)`, never an ordinary
`Except.ok` carrying a failed `PostResult`. -/
theorem stub_adapters_not_implemented :
    BlueskyPlatform.is_configured = false ∧
    CaraPlatform.is_configured = false ∧
    PixelfedPlatform.is_configured = false ∧
    (∀ ip t a, BlueskyPlatform.post_image ip t a =
        Except.error (StubSignal.notImplemented
          "Bluesky integration not yet implemented")) ∧
    (∀ vp t, BlueskyPlatform.post_video vp t =
        Except.error (StubSignal.notImplemented
          "Bluesky integration not yet implemented")) ∧
    BlueskyPlatform.verify_credentials =
      Except.error (StubSignal.notImplemented
        "Bluesky integration not yet implemented") ∧
    (∀ ip t a, CaraPlatform.post_image ip t a =
        Except.error (StubSignal.notImplemented
          "Cara integration not yet implemented")) ∧
    (∀ vp t, CaraPlatform.post_video vp t =
        Except.error (StubSignal.notImplemented
          "Cara integration not yet implemented")) ∧
    CaraPlatform.verify_credentials =
      Except.error (StubSignal.notImplemented
        "Cara integration not yet implemented") ∧
    (∀ ip t a, PixelfedPlatform.post_image ip t a =
        Except.error (StubSignal.notImplemented
          "Pixelfed integration not yet implemented")) ∧
    (∀ vp t, PixelfedPlatform.post_video vp t =
        Except.error (StubSignal.notImplemented
          "Pixelfed integration not yet implemented")) ∧
    PixelfedPlatform.verify_credentials =
      Except.error (StubSignal.notImplemented
        "Pixelfed integration not yet implemented") ∧
    (∀ (s : StubSignal) (r : PostResult),
        (Except.error s : Except StubSignal PostResult) ≠ Except.ok r) := by
  refine ⟨rfl, rfl, rfl, ?_, ?_, rfl, ?_, ?_, rfl, ?_, ?_, rfl, ?_⟩ <;>
    intros <;> simp [BlueskyPlatform.post_image, BlueskyPlatform.post_video,
      CaraPlatform.post_image, CaraPlatform.post_video,
      PixelfedPlatform.post_image, PixelfedPlatform.post_video]

/-- A value under a key of the metadata `files` block: the source stores
either a single path string or a list of path strings
(tests `TestGetImagePath`). -/
inductive FileEntry where
  | pathStr (s : String)
  | pathList (l : List String)
deriving DecidableEq, Repr

/-- The `files` block of a content metadata document, with the
social-sized `instagram` rendition and the full-resolution `big`
rendition. -/
structure FilesBlock where
  instagram : Option FileEntry
  big : Option FileEntry
deriving DecidableEq, Repr

/-- The part of a content metadata document that image-path resolution
reads. -/
structure ContentMetadata where
  files : Option FilesBlock
deriving DecidableEq, Repr

/-- Modelled from the spec: `_get_image_path` resolves the image eligible
for social posting — it prefers the designated social-sized (`instagram`)
image and returns no path when that image is absent, never falling back to
the full-resolution `big` image (spec §6, file-resolution collaborator);
`src/social/scheduler.py` is not in the available tree. -/
def _get_image_path (metadata : ContentMetadata) : Option String :=
  match metadata.files with
  | none => none
  | some fb =>
    match fb.instagram with
    | some (FileEntry.pathStr s) => some s
    | some (FileEntry.pathList l) => l.head?
    | none => none

/-- C9: when the instagram-sized path is populated the resolved path equals
it, regardless of the `big` entry; when only the `big` path is populated
resolution returns no path, never the big path; and when neither is
populated, or the `files` key is absent, resolution returns no path rather
than an error. -/
theorem get_image_path_spec :
    (∀ (fb : FilesBlock) (s : String),
        fb.instagram = some (FileEntry.pathStr s) →
        _get_image_path { files := some fb } = some s) ∧
    (∀ (fb : FilesBlock) (s : String) (l : List String),
        fb.instagram = some (FileEntry.pathList (s :: l)) →
        _get_image_path { files := some fb } = some s) ∧
    (∀ (fb : FilesBlock), fb.instagram = none →
        _get_image_path { files := some fb } = none) ∧
    _get_image_path { files := none } = none := by
  refine ⟨?_, ?_, ?_, rfl⟩ <;> intro fb <;> intros <;>
    simp_all [_get_image_path]

/-- Witness for C9: a populated instagram path wins over a populated big
path. -/
theorem get_image_path_spec_witness :
    _get_image_path
        { files := some
            { instagram := some (FileEntry.pathStr "/tmp/test.jpg"),
              big := some (FileEntry.pathStr "/tmp/big.jpg") } } =
      some "/tmp/test.jpg" :=
  get_image_path_spec.1
    { instagram := some (FileEntry.pathStr "/tmp/test.jpg"),
      big := some (FileEntry.pathStr "/tmp/big.jpg") } "/tmp/test.jpg" rfl

/-- The per-platform tracking record inside a content item's metadata
document (spec §3, social-media tracking block). -/
structure PlatformEntry where
  last_posted : Option String
  post_url : Option String
  post_count : Nat
deriving DecidableEq, Repr

/-- The part of a content metadata document that the Metadata Tracking
Updater reads and writes: the `social_media` mapping from platform name to
tracking record, absent until first created; other keys are untouched and
represented by `filename_base`. -/
structure TrackedMetadata where
  filename_base : String
  social_media : Option (List (String × PlatformEntry))
deriving DecidableEq, Repr

/-- Look up a platform's tracking entry by name (first match). -/
def findEntry (block : List (String × PlatformEntry)) (platform : String) :
    Option PlatformEntry :=
  match block with
  | [] => none
  | (k, e) :: rest => if k = platform then some e else findEntry rest platform

/-- Replace the platform's entry in place, or append it when absent. -/
def setEntry (block : List (String × PlatformEntry)) (platform : String)
    (e : PlatformEntry) : List (String × PlatformEntry) :=
  if (findEntry block platform).isSome then
    block.map (fun kv => if kv.1 = platform then (platform, e) else kv)
  else block ++ [(platform, e)]

/-- Modelled from the spec: `_update_social_media_tracking` locates or
creates the per-platform entry (creating the `social_media` block, with
counts starting from 0, if absent), increments `post_count` by exactly 1,
sets `last_posted` to the current timestamp and `post_url` to the given
value, and writes the full document back (spec §4.3);
`src/social/scheduler.py` is not in the available tree. -/
def _update_social_media_tracking (meta : TrackedMetadata) (platform : String)
    (post_url : String) (now : String) : TrackedMetadata :=
  let block := meta.social_media.getD []
  let old := (findEntry block platform).getD
    { last_posted := none, post_url := none, post_count := 0 }
  { meta with
      social_media := some (setEntry block platform
        { last_posted := some now, post_url := some post_url,
          post_count := old.post_count + 1 }) }

/-- Apply `_update_social_media_tracking` `n` times with the same
arguments. -/
def updateTimes (meta : TrackedMetadata) (platform : String)
    (post_url : String) (now : String) : Nat → TrackedMetadata
  | 0 => meta
  | n + 1 =>
    _update_social_media_tracking (updateTimes meta platform post_url now n)
      platform post_url now

theorem findEntry_map_set (block : List (String × PlatformEntry))
    (platform : String) (e : PlatformEntry)
    (h : (findEntry block platform).isSome = true) :
    findEntry
        (block.map (fun kv => if kv.1 = platform then (platform, e) else kv))
        platform = some e := by
  induction block with
  | nil => simp [findEntry] at h
  | cons kv rest ih =>
    obtain ⟨k, v⟩ := kv
    rw [List.map_cons]
    by_cases hk : k = platform
    · subst hk
      rw [if_pos rfl]
      simp [findEntry]
    · rw [if_neg hk]
      simp [findEntry, hk] at h ⊢
      exact ih h

theorem findEntry_append_fresh (block : List (String × PlatformEntry))
    (platform : String) (e : PlatformEntry)
    (h : findEntry block platform = none) :
    findEntry (block ++ [(platform, e)]) platform = some e := by
  induction block with
  | nil => simp [findEntry]
  | cons kv rest ih =>
    by_cases hk : kv.1 = platform
    · simp [findEntry, hk] at h
    · simp [findEntry, hk] at h ⊢
      exact ih h

/-- After `setEntry`, looking the platform up finds exactly the new
entry. -/
theorem findEntry_setEntry (block : List (String × PlatformEntry))
    (platform : String) (e : PlatformEntry) :
    findEntry (setEntry block platform e) platform = some e := by
  rw [setEntry]
  cases h : findEntry block platform with
  | some e0 => simpa [h] using findEntry_map_set block platform e (by simp [h])
  | none => simpa [h] using findEntry_append_fresh block platform e h

/-- One update writes the entry with the incremented count and the new
timestamp and URL. -/
theorem update_tracking_step (meta : TrackedMetadata)
    (platform url now : String) :
    findEntry
        ((_update_social_media_tracking meta platform url now).social_media.getD [])
        platform =
      some { last_posted := some now, post_url := some url,
             post_count :=
               ((findEntry (meta.social_media.getD []) platform).getD
                 { last_posted := none, post_url := none,
                   post_count := 0 }).post_count + 1 } := by
  simp [_update_social_media_tracking, findEntry_setEntry]

/-- C10: each `update` call increments the platform entry's `post_count` by
exactly 1 (creating the `social_media` block and the entry, starting from
0, when absent) and sets `last_posted` and `post_url`; consequently, after
`n` update invocations starting from a document with no `social_media` key,
`post_count` equals `n` — in particular one update for "mastodon" yields
`post_count = 1` and a second yields `post_count = 2` with the new URL and
timestamp. -/
theorem update_social_media_tracking_spec (meta : TrackedMetadata)
    (platform url now : String) :
    findEntry
        ((_update_social_media_tracking meta platform url now).social_media.getD [])
        platform =
      some { last_posted := some now, post_url := some url,
             post_count :=
               ((findEntry (meta.social_media.getD []) platform).getD
                 { last_posted := none, post_url := none,
                   post_count := 0 }).post_count + 1 } ∧
    (∀ m0 : TrackedMetadata, m0.social_media = none → ∀ n : Nat,
        findEntry
            ((updateTimes m0 platform url now (n + 1)).social_media.getD [])
            platform =
          some { last_posted := some now, post_url := some url,
                 post_count := n + 1 }) ∧
    findEntry
        ((_update_social_media_tracking
          { filename_base := "test", social_media := none } "mastodon"
          "https://example.com/1" "t1").social_media.getD []) "mastodon" =
      some { last_posted := some "t1", post_url := some "https://example.com/1",
             post_count := 1 } ∧
    findEntry
        ((_update_social_media_tracking
          (_update_social_media_tracking
            { filename_base := "test", social_media := none } "mastodon"
            "https://example.com/1" "t1") "mastodon" "https://new" "t2").social_media.getD [])
        "mastodon" =
      some { last_posted := some "t2", post_url := some "https://new",
             post_count := 2 } := by
  refine ⟨update_tracking_step meta platform url now, ?_, by decide, by decide⟩
  intro m0 hm0 n
  induction n with
  | zero =>
    have step := update_tracking_step m0 platform url now
    rw [hm0] at step
    simpa [updateTimes, findEntry] using step
  | succ n ih =>
    have step := update_tracking_step (updateTimes m0 platform url now (n + 1))
      platform url now
    rw [ih] at step
    simpa [updateTimes] using step

/-- Witness for C10: one update starting from a document without a
`social_media` key yields `post_count = 1`. -/
theorem update_social_media_tracking_spec_witness :
    findEntry
        ((updateTimes { filename_base := "test", social_media := none }
          "mastodon" "https://example.com/1" "t1" 1).social_media.getD [])
        "mastodon" =
      some { last_posted := some "t1", post_url := some "https://example.com/1",
             post_count := 1 } :=
  (update_social_media_tracking_spec
    { filename_base := "test", social_media := none } "mastodon"
    "https://example.com/1" "t1").2.1
    { filename_base := "test", social_media := none } rfl 0
